import Mathlib

/-!
Shallow embedding of the Streamlit dashboard in `app.py` and `streamlit_app.py`
(repository MarciaRCampos/analise-aedi-streamlit).

Numeric cell values are rationals.  Library statistics routines (scipy's
`shapiro`, `levene`, `kruskal`, statsmodels' `ols`/`anova_lm`) are modelled as
an abstract oracle `StatsLib`: the embedding verifies what the repository's own
code does with their inputs and outputs, not the internals of those libraries.
Streamlit calls are modelled as a trace of render events, in source order.
-/

/-- A categorical cell value as pandas sees it: a number, a string, or NaN. -/
inductive Cat where
  | num (v : ℚ)
  | str (s : String)
  | missing
deriving DecidableEq

/-- Pandas equality on cell values: NaN compares unequal to everything,
including itself (semantics of `df[col] == v` boolean masks). -/
def catEqB : Cat → Cat → Bool
  | .num a, .num b => a == b
  | .str a, .str b => a == b
  | _, _ => false

/-- A row of `AmesHousing.csv` as read by `pd.read_csv`, restricted to the four
columns the program uses.  `SalePrice` and `Garage Type` may be missing. -/
structure RawRow where
  salePrice : Option ℚ
  overallQual : ℚ
  neighborhood : String
  garageType : Option String
deriving DecidableEq

/-- A row after `load_data`: the derived `SalePrice_log` column is added and
`Garage Type` has been through `fillna('No Garage')`. -/
structure Row where
  salePrice : Option ℚ
  overallQual : ℚ
  neighborhood : String
  garageType : Option String
  salePrice_log : Option ℚ
deriving DecidableEq

/-- The two transformations in `load_data` (both files, identical code):
`df['SalePrice_log'] = np.log1p(df['SalePrice'])` and
`df['Garage Type'] = df['Garage Type'].fillna('No Garage')`.
The real-valued function `np.log1p` is a parameter `log1p`; `np.log1p` of a
missing value is missing. -/
def transformRow (log1p : ℚ → ℚ) (a : RawRow) : Row :=
  { salePrice := a.salePrice
    overallQual := a.overallQual
    neighborhood := a.neighborhood
    garageType := some (a.garageType.getD "No Garage")
    salePrice_log := a.salePrice.map log1p }

/-- The dataframe produced by a successful `load_data`. -/
def loadRows (log1p : ℚ → ℚ) (raws : List RawRow) : List Row :=
  raws.map (transformRow log1p)

/-- Accessor for the `Overall Qual` column. -/
def overallQualCol (r : Row) : Cat := .num r.overallQual

/-- Accessor for the `Neighborhood` column. -/
def neighborhoodCol (r : Row) : Cat := .str r.neighborhood

/-- Accessor for the `Garage Type` column (missing entries are NaN cells). -/
def garageTypeCol (r : Row) : Cat :=
  match r.garageType with
  | some g => .str g
  | none => .missing

/-- Maximum of a list of rationals (pandas `Series.max()` skips NaN; the
caller passes the non-missing values). -/
def listMax : List ℚ → Option ℚ
  | [] => none
  | x :: xs =>
    match listMax xs with
    | none => some x
    | some m => some (if x ≤ m then m else x)

/-- Minimum of a list of rationals (pandas `Series.min()` skips NaN). -/
def listMin : List ℚ → Option ℚ
  | [] => none
  | x :: xs =>
    match listMin xs with
    | none => some x
    | some m => some (if m ≤ x then m else x)

/-- `float(df['SalePrice_log'].max())`, NaN entries skipped. -/
def maxLog (df : List Row) : Option ℚ :=
  listMax (df.filterMap (fun r => r.salePrice_log))

/-- `float(df['SalePrice_log'].min())`, NaN entries skipped. -/
def minLog (df : List Row) : Option ℚ :=
  listMin (df.filterMap (fun r => r.salePrice_log))

/-- `df_filtrado = df[df['SalePrice_log'] <= preco_max]`
(streamlit_app.py line 125).  A NaN in `SalePrice_log` makes the comparison
False, so such rows are dropped, as in pandas. -/
def filterByMaxLog (df : List Row) (precoMax : ℚ) : List Row :=
  df.filter (fun r =>
    match r.salePrice_log with
    | some v => decide (v ≤ precoMax)
    | none => false)

/-- Helper for `uniqueCats`: keeps the first occurrence of each value,
remembering the values already emitted. -/
def uniqueCatsAux (seen : List Cat) : List Cat → List Cat
  | [] => []
  | c :: cs =>
    if c ∈ seen then uniqueCatsAux seen cs
    else c :: uniqueCatsAux (c :: seen) cs

/-- `Series.unique()`: distinct values in order of first appearance (NaN kept
once, as pandas does). -/
def uniqueCats (l : List Cat) : List Cat := uniqueCatsAux [] l

/-- The list-comprehension shared by all three analyses:
`[df['SalePrice_log'][df[col] == v].dropna() for v in df[col].unique()]`. -/
def groupsFor (df : List Row) (col : Row → Cat) : List (List ℚ) :=
  (uniqueCats (df.map col)).map
    (fun c => (df.filter (fun r => catEqB (col r) c)).filterMap
      (fun r => r.salePrice_log))

/-- Insertion step of an insertion sort by a boolean relation. -/
def insertLe (le : α → α → Bool) (x : α) : List α → List α
  | [] => [x]
  | y :: ys => if le x y then x :: y :: ys else y :: insertLe le x ys

/-- Insertion sort by a boolean relation (models pandas ascending sorts;
tie order is irrelevant to every property stated below). -/
def sortLe (le : α → α → Bool) : List α → List α
  | [] => []
  | x :: xs => insertLe le x (sortLe le xs)

/-- Adjacent-pairs check that a list is ascending under `le`. -/
def chainLeB (le : α → α → Bool) : List α → Bool
  | [] => true
  | [_] => true
  | a :: b :: t => le a b && chainLeB le (b :: t)

/-- Order on `Option ℚ` with `none` greatest: pandas `sort_values()` puts NaN
last (`na_position='last'`). -/
def optLeB : Option ℚ → Option ℚ → Bool
  | _, none => true
  | none, some _ => false
  | some a, some b => decide (a ≤ b)

/-- Ascending order on cell values used for sorted group keys (numbers by
value, strings lexicographically; one column never mixes the two). -/
def catLeB : Cat → Cat → Bool
  | .missing, _ => true
  | _, .missing => false
  | .num a, .num b => decide (a ≤ b)
  | .num _, .str _ => true
  | .str _, .num _ => false
  | .str a, .str b => !decide (b < a)

/-- Median of a rational sample, as pandas computes it (mean of the two middle
order statistics for even length); `none` for the empty sample. -/
def median (xs : List ℚ) : Option ℚ :=
  let s := sortLe (fun a b => decide (a ≤ b)) xs
  let n := s.length
  if n = 0 then none
  else if n % 2 = 1 then s[n / 2]?
  else do
    let a ← s[n / 2 - 1]?
    let b ← s[n / 2]?
    pure ((a + b) / 2)

/-- `df.groupby(col)` keys: distinct non-NaN values, sorted ascending. -/
def groupbyKeys (df : List Row) (col : Row → Cat) : List Cat :=
  sortLe catLeB ((uniqueCats (df.map col)).filter
    (fun c => match c with | .missing => false | _ => true))

/-- `df.groupby(col)['SalePrice_log'].median()` at one key (NaN skipped). -/
def groupMedian (df : List Row) (col : Row → Cat) (c : Cat) : Option ℚ :=
  median ((df.filter (fun r => catEqB (col r) c)).filterMap
    (fun r => r.salePrice_log))

/-- `df.groupby(col)['SalePrice_log'].median().sort_values().index`:
group keys ascending by group median (NaN medians last). -/
def medianOrder (df : List Row) (col : Row → Cat) : List Cat :=
  sortLe (fun a b => optLeB (groupMedian df col a) (groupMedian df col b))
    (groupbyKeys df col)

/-- A fitted `ols(formula, data).fit()` model, identified by what the program
hands to the library: the formula text and the dataframe. -/
structure OlsModel where
  formula : String
  data : List Row
deriving DecidableEq

/-- One row of a statsmodels ANOVA table (columns sum_sq, df, F, PR(>F);
F and PR(>F) are NaN on the residual row). -/
structure AnovaRow where
  sum_sq : ℚ
  dfree : ℚ
  F : Option ℚ
  prF : Option ℚ
deriving DecidableEq

/-- A statsmodels ANOVA table. -/
def AnovaTable := List AnovaRow
deriving DecidableEq

/-- `anova_table['PR(>F)'][0]`: the PR(>F) entry of the first table row. -/
def prF0 : AnovaTable → Option ℚ
  | [] => none
  | r :: _ => r.prF

/-- Abstract oracle for the statistics libraries the program calls.  Each
field returns whatever the library would; the theorems below are about how the
program routes data to and from these calls. -/
structure StatsLib where
  olsResid : OlsModel → List ℚ
  shapiro : List ℚ → ℚ × ℚ
  levene : List (List ℚ) → ℚ × ℚ
  kruskal : List (List ℚ) → ℚ × ℚ
  anova_lm : OlsModel → ℕ → AnovaTable

/-- A rendered matplotlib/seaborn box-plot, as configured by the program:
x/y columns, the explicit `order=` argument (`none` when the call passes no
order), title, axis labels, tick-label rotation, palette and figure size. -/
structure Figure where
  x : String
  y : String
  order : Option (List Cat)
  title : String
  xlabel : String
  ylabel : String
  rotation : Option ℚ
  palette : Option String
  figsize : ℚ × ℚ
deriving DecidableEq

/-- One Streamlit render call, in source order.  Layout containers
(`st.columns`, `st.expander`, `st.tabs`) only group output visually and are
not separate events.  `frameworkException` is Streamlit's own red traceback
box for an uncaught exception in a render pass. -/
inductive RenderEvent where
  | stError (text : String)
  | stTitle (text : String)
  | stMarkdown (text : String)
  | stDivider
  | stHeader (text : String)
  | stSubheader (text : String)
  | stWrite (text : String) (vals : List ℚ)
  | stSuccess (text : String)
  | stWarning (text : String)
  | stInfo (text : String)
  | stMetric (label : String) (value : Option ℚ) (delta : Option String)
  | stDataframe (table : AnovaTable)
  | stPyplot (fig : Figure)
  | sidebarHeader (text : String)
  | sidebarTitle (text : String)
  | sidebarWrite (text : String)
  | frameworkException (text : String)
deriving DecidableEq

/-- The three grouping attributes offered by the selectbox in app.py. -/
inductive AnalysisOption where
  | overallQual
  | neighborhood
  | garageType
deriving DecidableEq

/-- The formula-and-data handed to `ols(...)` for the Overall Qual analysis. -/
def overallModel (df : List Row) : OlsModel :=
  ⟨"SalePrice_log ~ Q(\"Overall Qual\")", df⟩

/-- The formula-and-data handed to `ols(...)` for the Neighborhood analysis. -/
def neighborhoodModel (df : List Row) : OlsModel :=
  ⟨"SalePrice_log ~ Q(\"Neighborhood\")", df⟩

/-- The formula-and-data handed to `ols(...)` for the Garage Type analysis. -/
def garageModel (df : List Row) : OlsModel :=
  ⟨"SalePrice_log ~ Q(\"Garage Type\")", df⟩

/-- `stats.shapiro(model.resid)` p-value for a fitted model. -/
def normalityP (S : StatsLib) (m : OlsModel) : ℚ :=
  (S.shapiro (S.olsResid m)).2

/-- `stats.levene(*groups)` p-value for one grouping column. -/
def homogeneityP (S : StatsLib) (df : List Row) (col : Row → Cat) : ℚ :=
  (S.levene (groupsFor df col)).2

namespace App

/-- app.py `load_data` (lines 19-29): on success, log1p + fillna transforms;
on `FileNotFoundError`, one `st.error` and a `None` result. -/
def load_data (log1p : ℚ → ℚ) (file : Option (List RawRow)) :
    List RenderEvent × Option (List Row) :=
  match file with
  | some raws => ([], some (loadRows log1p raws))
  | none =>
    ([.stError "Arquivo \x27AmesHousing.csv\x27 não encontrado. Por favor, faça o upload do arquivo junto com o app."],
     none)

/-- app.py `run_analysis_overall_qual` (lines 31-60). -/
def run_analysis_overall_qual (S : StatsLib) (df : List Row) :
    List RenderEvent :=
  let model := overallModel df
  let shapiro_p := normalityP S model
  let levene_p := homogeneityP S df overallQualCol
  [.stHeader "Análise 1: Qualidade Geral (Overall Qual)",
   .stSubheader "a) Validação dos Pressupostos da ANOVA",
   .stWrite "**Normalidade dos Resíduos (Shapiro-Wilk):** p-valor =" [shapiro_p],
   (if shapiro_p > 0.05 then .stSuccess "✅ Pressuposto de normalidade atendido."
    else .stWarning "❌ Pressuposto de normalidade violado."),
   .stWrite "**Homogeneidade de Variâncias (Levene):** p-valor =" [levene_p],
   (if levene_p > 0.05 then .stSuccess "✅ Pressuposto de homogeneidade atendido."
    else .stWarning "❌ Pressuposto de homogeneidade violado."),
   .stInfo "Conclusão: Como todos os pressupostos são atendidos, a ANOVA tradicional é adequada.",
   .stSubheader "b) Comparação de Preços com ANOVA",
   .stWrite "**Tabela da ANOVA:**" [],
   .stDataframe (S.anova_lm model 2),
   .stPyplot
     { x := "Overall Qual", y := "SalePrice_log", order := none,
       title := "Distribuição de Log(SalePrice) por Qualidade Geral",
       xlabel := "Qualidade Geral", ylabel := "Log(Preço de Venda)",
       rotation := none, palette := none, figsize := (12, 7) },
   .stWrite "O p-valor (PR(>F)) próximo de zero indica que a qualidade geral tem um impacto estatisticamente significativo no preço." []]

/-- app.py `run_analysis_neighborhood` (lines 62-85).  Note: both assumption
verdicts are emitted unconditionally as warnings, the conclusion uses
`st.error`, and the box-plot is ordered by group median with 90° tick
rotation. -/
def run_analysis_neighborhood (S : StatsLib) (df : List Row) :
    List RenderEvent :=
  let model := neighborhoodModel df
  let shapiro_p := normalityP S model
  let levene_p := homogeneityP S df neighborhoodCol
  let kr := S.kruskal (groupsFor df neighborhoodCol)
  [.stHeader "Análise 2: Bairro (Neighborhood)",
   .stSubheader "a) Validação dos Pressupostos e Escolha do Método",
   .stWrite "**Normalidade dos Resíduos (Shapiro-Wilk):** p-valor =" [shapiro_p],
   .stWarning "❌ Pressuposto de normalidade violado.",
   .stWrite "**Homogeneidade de Variâncias (Levene):** p-valor =" [levene_p],
   .stWarning "❌ Pressuposto de homogeneidade violado.",
   .stError "Conclusão: Com a violação dos pressupostos, a ANOVA tradicional não é confiável. O método alternativo não paramétrico **Kruskal-Wallis** é o mais adequado.",
   .stSubheader "b) Comparação de Preços com Kruskal-Wallis",
   .stWrite "**Teste de Kruskal-Wallis:** Estatística H =, p-valor =" [kr.1, kr.2],
   .stWrite "O p-valor extremamente baixo indica que há uma diferença estatisticamente significativa na mediana dos preços entre os bairros." [],
   .stPyplot
     { x := "Neighborhood", y := "SalePrice_log",
       order := some (medianOrder df neighborhoodCol),
       title := "Distribuição de Log(SalePrice) por Bairro",
       xlabel := "Bairro", ylabel := "Log(Preço de Venda)",
       rotation := some 90, palette := none, figsize := (14, 8) }]

/-- app.py `run_analysis_garage_type` (lines 87-116).  The box-plot is
ordered by group median but `plt.xticks(rotation=...)` is never called. -/
def run_analysis_garage_type (S : StatsLib) (df : List Row) :
    List RenderEvent :=
  let model := garageModel df
  let shapiro_p := normalityP S model
  let levene_p := homogeneityP S df garageTypeCol
  [.stHeader "Análise 3: Tipo de Garagem (Garage Type)",
   .stSubheader "a) Validação dos Pressupostos da ANOVA",
   .stWrite "**Normalidade dos Resíduos (Shapiro-Wilk):** p-valor =" [shapiro_p],
   (if shapiro_p > 0.05 then .stSuccess "✅ Pressuposto de normalidade atendido."
    else .stWarning "❌ Pressuposto de normalidade violado."),
   .stWrite "**Homogeneidade de Variâncias (Levene):** p-valor =" [levene_p],
   (if levene_p > 0.05 then .stSuccess "✅ Pressuposto de homogeneidade atendido."
    else .stWarning "❌ Pressuposto de homogeneidade violado."),
   .stInfo "Conclusão: Apesar da leve violação da normalidade, a ANOVA é robusta a isso com amostras grandes, e como a homogeneidade foi atendida, podemos prosseguir com a ANOVA tradicional.",
   .stSubheader "b) Comparação de Preços com ANOVA",
   .stWrite "**Tabela da ANOVA:**" [],
   .stDataframe (S.anova_lm model 2),
   .stPyplot
     { x := "Garage Type", y := "SalePrice_log",
       order := some (medianOrder df garageTypeCol),
       title := "Distribuição de Log(SalePrice) por Tipo de Garagem",
       xlabel := "Tipo de Garagem", ylabel := "Log(Preço de Venda)",
       rotation := none, palette := none, figsize := (12, 7) }]

/-- app.py module top level (lines 118-133): title, caption, `load_data`,
then — only when the load succeeded — the sidebar and the selectbox dispatch
to exactly one of the three routines. -/
def main (S : StatsLib) (log1p : ℚ → ℚ) (file : Option (List RawRow))
    (sel : AnalysisOption) : List RenderEvent :=
  let loaded := load_data log1p file
  [.stTitle "Tarefa 3 de AEDI: Análise Interativa do Mercado Imobiliário de Ames",
   .stWrite "Análise de Variância (ANOVA) aplicada ao dataset Ames Housing." []]
  ++ loaded.1
  ++ match loaded.2 with
     | none => []
     | some df =>
       .sidebarHeader "Selecione a Análise" ::
       match sel with
       | .overallQual => run_analysis_overall_qual S df
       | .neighborhood => run_analysis_neighborhood S df
       | .garageType => run_analysis_garage_type S df

end App

namespace StApp

/-- streamlit_app.py `load_data` (lines 19-28): same transforms, different
error text. -/
def load_data (log1p : ℚ → ℚ) (file : Option (List RawRow)) :
    List RenderEvent × Option (List Row) :=
  match file with
  | some raws => ([], some (loadRows log1p raws))
  | none =>
    ([.stError "Arquivo \x27AmesHousing.csv\x27 não encontrado. Por favor, faça o upload do arquivo para o seu repositório GitHub."],
     none)

/-- streamlit_app.py `run_analysis_overall_qual` (lines 30-67): metrics and
verdicts inside an expander, then a second identical model fit, the ANOVA
table (typ=2) and an unordered box-plot. -/
def run_analysis_overall_qual (S : StatsLib) (df : List Row) :
    List RenderEvent :=
  let model := overallModel df
  let shapiro_p := normalityP S model
  let levene_p := homogeneityP S df overallQualCol
  let anova_table := S.anova_lm (overallModel df) 2
  [.stSubheader "Análise da Qualidade Geral (Overall Qual)",
   .stMetric "P-valor de Shapiro-Wilk (Normalidade)" (some shapiro_p) none,
   (if shapiro_p > 0.05 then .stSuccess "Pressuposto Atendido."
    else .stWarning "Pressuposto Violado."),
   .stMetric "P-valor de Levene (Homogeneidade)" (some levene_p) none,
   (if levene_p > 0.05 then .stSuccess "Pressuposto Atendido."
    else .stWarning "Pressuposto Violado."),
   .stInfo "Conclusão: Como todos os pressupostos são atendidos, a ANOVA tradicional é adequada.",
   .stMetric "P-valor do Teste ANOVA" (prF0 anova_table)
     (some "Rejeitamos H0: Diferença Significativa"),
   .stWrite "A tabela abaixo mostra os resultados detalhados do teste." [],
   .stDataframe anova_table,
   .stPyplot
     { x := "Overall Qual", y := "SalePrice_log", order := none,
       title := "Distribuição de Log(SalePrice) por Qualidade Geral",
       xlabel := "Qualidade Geral", ylabel := "Log(Preço de Venda)",
       rotation := none, palette := some "viridis", figsize := (12, 7) }]

/-- streamlit_app.py `run_analysis_neighborhood` (lines 71-88): unconditional
violation warning, Kruskal-Wallis metric, median-ordered box-plot with 90°
tick rotation. -/
def run_analysis_neighborhood (S : StatsLib) (df : List Row) :
    List RenderEvent :=
  let model := neighborhoodModel df
  let shapiro_p := normalityP S model
  let levene_p := homogeneityP S df neighborhoodCol
  let kr := S.kruskal (groupsFor df neighborhoodCol)
  [.stSubheader "Análise por Bairro (Neighborhood)",
   .stWarning "Pressupostos de normalidade e homogeneidade violados. Usando Kruskal-Wallis.",
   .stMetric "P-valor de Kruskal-Wallis" (some kr.2)
     (some "Rejeitamos H0: Diferença Significativa"),
   .stPyplot
     { x := "Neighborhood", y := "SalePrice_log",
       order := some (medianOrder df neighborhoodCol),
       title := "Distribuição de Log(SalePrice) por Bairro",
       xlabel := "Bairro", ylabel := "Log(Preço de Venda)",
       rotation := some 90, palette := some "plasma", figsize := (14, 8) }]

/-- streamlit_app.py `run_analysis_garage_type` (lines 91-105): no assumption
check at all, ANOVA metric and table, median-ordered box-plot without tick
rotation. -/
def run_analysis_garage_type (S : StatsLib) (df : List Row) :
    List RenderEvent :=
  let anova_table := S.anova_lm (garageModel df) 2
  [.stSubheader "Análise por Tipo de Garagem (Garage Type)",
   .stMetric "P-valor do Teste ANOVA" (prF0 anova_table)
     (some "Rejeitamos H0: Diferença Significativa"),
   .stDataframe anova_table,
   .stPyplot
     { x := "Garage Type", y := "SalePrice_log",
       order := some (medianOrder df garageTypeCol),
       title := "Distribuição de Log(SalePrice) por Tipo de Garagem",
       xlabel := "Tipo de Garagem", ylabel := "Log(Preço de Venda)",
       rotation := none, palette := some "magma", figsize := (12, 7) }]

/-- streamlit_app.py module top level (lines 108-139).  `load_data` runs
first; the title block and sidebar render next; line 124 then evaluates
`df['SalePrice_log'].min()` BEFORE the `if df is not None` guard, so a failed
load raises `TypeError` there and Streamlit shows its own exception box.  On a
successful load the slider value `precoMax` filters the rows and all three
routines run, one per tab. -/
def main (S : StatsLib) (log1p : ℚ → ℚ) (file : Option (List RawRow))
    (precoMax : ℚ) : List RenderEvent :=
  let loaded := load_data log1p file
  loaded.1
  ++ [.stTitle "Análise Interativa de Imóveis",
      .stMarkdown "<h3 style=\x27text-align: center;\x27>Mercado de Ames, Iowa</h3>",
      .stDivider,
      .sidebarTitle "Parâmetros",
      .sidebarWrite "Use os controles abaixo para filtrar os dados (funcionalidade a ser implementada)."]
  ++ match loaded.2 with
     | none => [.frameworkException "TypeError: \x27NoneType\x27 object is not subscriptable"]
     | some df =>
       let df_filtrado := filterByMaxLog df precoMax
       run_analysis_overall_qual S df_filtrado
       ++ run_analysis_neighborhood S df_filtrado
       ++ run_analysis_garage_type S df_filtrado

end StApp

/-- True for the two user-visible error displays: `st.error` and Streamlit's
traceback box for an uncaught exception. -/
def isErrorDisplay : RenderEvent → Bool
  | .stError _ => true
  | .frameworkException _ => true
  | _ => false

/-- True for events only an analysis routine produces: section headers,
verdicts, metrics, tables and figures.  The module top levels emit only
titles, captions, markdown, dividers and sidebar text. -/
def isAnalysisOutput : RenderEvent → Bool
  | .stHeader _ => true
  | .stSubheader _ => true
  | .stSuccess _ => true
  | .stWarning _ => true
  | .stInfo _ => true
  | .stMetric _ _ _ => true
  | .stDataframe _ => true
  | .stPyplot _ => true
  | _ => false

/-- True for `st.success` events (a "met" assumption verdict). -/
def isSuccessEvent : RenderEvent → Bool
  | .stSuccess _ => true
  | _ => false

/-- True for `st.warning` events (a "violated" assumption verdict). -/
def isWarningEvent : RenderEvent → Bool
  | .stWarning _ => true
  | _ => false

/-- True for `st.header` events (each app.py routine emits exactly one). -/
def isHeaderEvent : RenderEvent → Bool
  | .stHeader _ => true
  | _ => false

/-- True for `st.subheader` events named like the three streamlit_app.py
routine banners. -/
def isSubheaderEvent : RenderEvent → Bool
  | .stSubheader _ => true
  | _ => false

/-- True for box-plot events. -/
def isPyplot : RenderEvent → Bool
  | .stPyplot _ => true
  | _ => false

/-- True for box-plot events whose tick labels are rotated. -/
def isRotatedPyplot : RenderEvent → Bool
  | .stPyplot f => f.rotation.isSome
  | _ => false

/-- The grouping-column accessor named by a box-plot's `x` column. -/
def colOf (s : String) : Row → Cat :=
  if s = "Overall Qual" then overallQualCol
  else if s = "Neighborhood" then neighborhoodCol
  else if s = "Garage Type" then garageTypeCol
  else fun _ => Cat.missing

/-- Seaborn's group order for a numeric x column when no `order=` is passed:
distinct non-NaN values sorted ascending (`categorical_order`). -/
def seabornDefaultOrder (df : List Row) (col : Row → Cat) : List Cat :=
  sortLe catLeB ((uniqueCats (df.map col)).filter
    (fun c => match c with | .missing => false | _ => true))

/-- The left-to-right group order a rendered box-plot actually shows: the
explicit `order=` argument when one is passed, seaborn's default otherwise. -/
def renderedOrder (df : List Row) (f : Figure) : List Cat :=
  match f.order with
  | some l => l
  | none => seabornDefaultOrder df (colOf f.x)

/-- True unless the event is a box-plot whose rendered group order is not
ascending in the group medians of `SalePrice_log`. -/
def figOrderedByMedianB (df : List Row) : RenderEvent → Bool
  | .stPyplot f =>
    chainLeB
      (fun a b => optLeB (groupMedian df (colOf f.x) a)
        (groupMedian df (colOf f.x) b))
      (renderedOrder df f)
  | _ => true

/-- The app.py header of the routine a given selectbox choice dispatches to. -/
def headerOf : AnalysisOption → RenderEvent
  | .overallQual => .stHeader "Análise 1: Qualidade Geral (Overall Qual)"
  | .neighborhood => .stHeader "Análise 2: Bairro (Neighborhood)"
  | .garageType => .stHeader "Análise 3: Tipo de Garagem (Garage Type)"

/-- A concrete statistics oracle for evaluating the embedding on concrete
inputs (every library call returns statistic 1, p-value 1, empty table). -/
def constLib : StatsLib where
  olsResid := fun _ => []
  shapiro := fun _ => (1, 1)
  levene := fun _ => (1, 1)
  kruskal := fun _ => (1, 1)
  anova_lm := fun _ _ => []

/-- First sample raw row: quality grade 1, price 10 (log scale under the
identity transform), garage type present. -/
def rawHome1 : RawRow :=
  { salePrice := some 10, overallQual := 1, neighborhood := "NAmes",
    garageType := some "Attchd" }

/-- Second sample raw row: quality grade 2, price 5, missing garage type. -/
def rawHome2 : RawRow :=
  { salePrice := some 5, overallQual := 2, neighborhood := "OldTown",
    garageType := none }

def rawSample : List RawRow := [rawHome1, rawHome2]

/-- `rawSample` after loading with the identity as the log transform. -/
def dfSample : List Row := loadRows (fun q => q) rawSample

theorem chainLeB_cons_cons (le : α → α → Bool) (a b : α) (t : List α) :
    chainLeB le (a :: b :: t) = (le a b && chainLeB le (b :: t)) := rfl

theorem chainLeB_insert_aux (le : α → α → Bool)
    (htot : ∀ a b, le a b = true ∨ le b a = true) (x : α) :
    ∀ (l : List α) (y : α), chainLeB le (y :: l) = true → le y x = true →
      chainLeB le (y :: insertLe le x l) = true := by
  intro l
  induction l with
  | nil =>
    intro y _ hyx
    simp [insertLe, chainLeB, hyx]
  | cons z zs ih =>
    intro y hchain hyx
    rw [chainLeB_cons_cons, Bool.and_eq_true] at hchain
    by_cases hxz : le x z = true
    · simp only [insertLe, hxz, if_pos]
      rw [chainLeB_cons_cons, Bool.and_eq_true,
        chainLeB_cons_cons, Bool.and_eq_true]
      exact ⟨hyx, hxz, hchain.2⟩
    · simp only [insertLe, hxz, if_neg, Bool.not_eq_true]
      rw [chainLeB_cons_cons, Bool.and_eq_true]
      refine ⟨hchain.1, ih z hchain.2 ?_⟩
      rcases htot x z with h | h
      · exact absurd h hxz
      · exact h

theorem chainLeB_insertLe (le : α → α → Bool)
    (htot : ∀ a b, le a b = true ∨ le b a = true) (x : α) (l : List α)
    (hl : chainLeB le l = true) :
    chainLeB le (insertLe le x l) = true := by
  cases l with
  | nil => simp [insertLe, chainLeB]
  | cons y ys =>
    by_cases hxy : le x y = true
    · simp only [insertLe, hxy, if_pos]
      rw [chainLeB_cons_cons, Bool.and_eq_true]
      exact ⟨hxy, hl⟩
    · simp only [insertLe, hxy, if_neg, Bool.not_eq_true]
      refine chainLeB_insert_aux le htot x ys y hl ?_
      rcases htot x y with h | h
      · exact absurd h hxy
      · exact h

theorem chainLeB_sortLe (le : α → α → Bool)
    (htot : ∀ a b, le a b = true ∨ le b a = true) (l : List α) :
    chainLeB le (sortLe le l) = true := by
  induction l with
  | nil => simp [sortLe, chainLeB]
  | cons x xs ih => exact chainLeB_insertLe le htot x _ ih

theorem optLeB_total (a b : Option ℚ) : optLeB a b = true ∨ optLeB b a = true := by
  cases a <;> cases b <;> simp [optLeB]
  exact le_total _ _

/-- The group order every median-ordered box-plot receives really is ascending
in the group medians. -/
theorem medianOrder_sorted (df : List Row) (col : Row → Cat) :
    chainLeB
      (fun a b => optLeB (groupMedian df col a) (groupMedian df col b))
      (medianOrder df col) = true :=
  chainLeB_sortLe _ (fun a b => optLeB_total _ _) _

theorem le_listMax {x : ℚ} : ∀ {l : List ℚ}, x ∈ l →
    ∃ m, listMax l = some m ∧ x ≤ m := by
  intro l
  induction l with
  | nil => intro h; cases h
  | cons y ys ih =>
    intro hx
    rcases List.mem_cons.mp hx with rfl | hx
    · cases hys : listMax ys with
      | none => exact ⟨x, by simp [listMax, hys], le_refl x⟩
      | some m =>
        by_cases hle : x ≤ m
        · exact ⟨m, by simp [listMax, hys, hle], hle⟩
        · exact ⟨x, by simp [listMax, hys, hle], le_refl x⟩
    · rcases ih hx with ⟨m, hm, hxm⟩
      refine ⟨if y ≤ m then m else y, by simp [listMax, hm], ?_⟩
      by_cases hle : y ≤ m
      · simpa [hle] using hxm
      · simp only [hle, if_neg]
        exact le_trans hxm (le_of_not_le hle)

theorem listMin_eq_none_iff (l : List ℚ) : listMin l = none ↔ l = [] := by
  cases l with
  | nil => simp [listMin]
  | cons y ys => cases h : listMin ys <;> simp [listMin, h]

theorem listMin_le {x : ℚ} : ∀ {l : List ℚ} {m : ℚ}, x ∈ l →
    listMin l = some m → m ≤ x := by
  intro l
  induction l with
  | nil => intro m h; cases h
  | cons y ys ih =>
    intro m hx hmin
    cases hys : listMin ys with
    | none =>
      have hnil : ys = [] := (listMin_eq_none_iff ys).mp hys
      subst hnil
      rcases List.mem_cons.mp hx with rfl | hx
      · rw [listMin, hys] at hmin
        injection hmin with h
        exact h ▸ le_refl x
      · cases hx
    | some m2 =>
      rw [listMin, hys] at hmin
      injection hmin with h
      rcases List.mem_cons.mp hx with rfl | hx
      · by_cases hle : m2 ≤ x
        · rw [if_pos hle] at h
          exact h ▸ hle
        · rw [if_neg hle] at h
          exact h ▸ le_refl x
      · have hm2 := ih hx hys
        by_cases hle : m2 ≤ y
        · rw [if_pos hle] at h
          exact h ▸ hm2
        · rw [if_neg hle] at h
          exact h ▸ le_trans (le_of_not_le hle) hm2

/-- C5: after a successful load, the derived `SalePrice_log` column equals
`log1p` of the `SalePrice` column in every row (missing prices give missing
logs, as NumPy propagates NaN). -/
theorem c5_log_column (log1p : ℚ → ℚ) (raws : List RawRow) (r : Row)
    (hr : r ∈ loadRows log1p raws) :
    r.salePrice_log = r.salePrice.map log1p := by
  rcases List.mem_map.mp hr with ⟨a, _, rfl⟩
  rfl

/-- Witness for C5 at the concrete sample input. -/
theorem c5_log_column_witness :
    (transformRow (fun q => q) rawHome1).salePrice_log
      = (transformRow (fun q => q) rawHome1).salePrice.map (fun q => q) :=
  c5_log_column (fun q => q) rawSample _ (by simp [loadRows, rawSample])

/-- C6: after a successful load the garage-type column has no missing value;
an entry missing in the input becomes the sentinel `No Garage`, and a present
entry is unchanged. -/
theorem c6_garage_fillna (log1p : ℚ → ℚ) (raws : List RawRow) (i : ℕ)
    (a : RawRow) (ha : raws[i]? = some a) :
    ∃ r, (loadRows log1p raws)[i]? = some r ∧
      r.garageType ≠ none ∧
      (a.garageType = none → r.garageType = some "No Garage") ∧
      (∀ g, a.garageType = some g → r.garageType = some g) := by
  refine ⟨transformRow log1p a, ?_, by simp [transformRow], ?_, ?_⟩
  · rw [loadRows, List.getElem?_map, ha]
    rfl
  · intro h
    simp [transformRow, h]
  · intro g h
    simp [transformRow, h]

/-- Witness for C6 at the concrete sample input (second row: missing
garage type becomes the sentinel). -/
theorem c6_garage_fillna_witness :
    ∃ r, (loadRows (fun q => q) rawSample)[1]? = some r ∧
      r.garageType ≠ none ∧
      (rawHome2.garageType = none → r.garageType = some "No Garage") ∧
      (∀ g, rawHome2.garageType = some g → r.garageType = some g) :=
  c6_garage_fillna (fun q => q) rawSample 1 rawHome2 (by rfl)

/-- C8: filtering at the slider maximum keeps every row (when no log value is
missing, which holds whenever `SalePrice` is fully populated as the input
contract requires), and filtering at the slider minimum keeps only rows whose
log price equals that minimum. -/
theorem c8_filter_bounds (df : List Row) (mx mn : ℚ)
    (hmx : maxLog df = some mx) (hmn : minLog df = some mn)
    (hall : ∀ r ∈ df, r.salePrice_log ≠ none) :
    (filterByMaxLog df mx).length = df.length ∧
    ∀ r ∈ filterByMaxLog df mn, r.salePrice_log = some mn := by
  constructor
  · have heq : filterByMaxLog df mx = df := by
      unfold filterByMaxLog
      apply List.filter_eq_self.mpr
      intro r hr
      cases hlog : r.salePrice_log with
      | none => exact absurd hlog (hall r hr)
      | some v =>
        have hv : v ∈ df.filterMap (fun s => s.salePrice_log) :=
          List.mem_filterMap.mpr ⟨r, hr, hlog⟩
        rcases le_listMax hv with ⟨m, hm, hvm⟩
        have hmmx : m = mx := by
          have h2 : some m = some mx := by rw [← hm, ← hmx]; rfl
          exact Option.some.inj h2
        simp [hlog]
        exact hmmx ▸ hvm
    rw [heq]
  · intro r hr
    have hrd : r ∈ df := List.mem_of_mem_filter hr
    have hpred := List.of_mem_filter hr
    cases hlog : r.salePrice_log with
    | none => simp [hlog] at hpred
    | some v =>
      have hv : v ∈ df.filterMap (fun s => s.salePrice_log) :=
        List.mem_filterMap.mpr ⟨r, hrd, hlog⟩
      have hmnv : mn ≤ v := listMin_le hv hmn
      have hvmn : v ≤ mn := by
        simp [hlog] at hpred
        exact hpred
      exact congrArg some (le_antisymm hvmn hmnv)

/-- Witness for C8 at the concrete sample input (logs 10 and 5; the filter at
10 keeps both rows, the filter at 5 keeps only log-5 rows). -/
theorem c8_filter_bounds_witness :
    (filterByMaxLog dfSample 10).length = dfSample.length ∧
    ∀ r ∈ filterByMaxLog dfSample 5, r.salePrice_log = some 5 :=
  c8_filter_bounds dfSample 10 5 (by rfl) (by rfl) (by decide)

/-- C10: every view handed to an analysis routine — the loaded dataframe or
any slider-filtered view of it — satisfies the dataset invariants: the log
column is `log1p` of the sale price and the garage type is never missing. -/
theorem c10_view_invariants (log1p : ℚ → ℚ) (raws : List RawRow) (t : ℚ)
    (r : Row)
    (hr : r ∈ loadRows log1p raws ∨
      r ∈ filterByMaxLog (loadRows log1p raws) t) :
    r.salePrice_log = r.salePrice.map log1p ∧ r.garageType ≠ none := by
  have hmem : r ∈ loadRows log1p raws := by
    rcases hr with h | h
    · exact h
    · exact List.mem_of_mem_filter h
  rcases List.mem_map.mp hmem with ⟨a, _, rfl⟩
  exact ⟨rfl, by simp [transformRow]⟩

/-- Witness for C10 at the concrete sample input. -/
theorem c10_view_invariants_witness :
    (transformRow (fun q => q) rawHome1).salePrice_log
      = (transformRow (fun q => q) rawHome1).salePrice.map (fun q => q) ∧
    (transformRow (fun q => q) rawHome1).garageType ≠ none :=
  c10_view_invariants (fun q => q) rawSample 10 _
    (Or.inl (by simp [loadRows, rawSample]))

/-- C1: with `AmesHousing.csv` absent, app.py renders exactly one error
display and zero analysis output, whatever attribute is selected; but
streamlit_app.py renders TWO error displays — its `load_data` error plus the
framework's traceback box for the `TypeError` raised at the slider line,
which reads `df['SalePrice_log']` before the `if df is not None` guard.
Both variants produce zero analysis output. -/
theorem c1_missing_file_behavior (S : StatsLib) (lg : ℚ → ℚ)
    (sel : AnalysisOption) (pm : ℚ) :
    ((App.main S lg none sel).countP isErrorDisplay = 1 ∧
     (App.main S lg none sel).countP isAnalysisOutput = 0) ∧
    ((StApp.main S lg none pm).countP isErrorDisplay = 2 ∧
     (StApp.main S lg none pm).countP isAnalysisOutput = 0) :=
  ⟨⟨rfl, rfl⟩, rfl, rfl⟩

/-- C7: the parametric path displays `anova_lm(model, typ=2)` for the model
fitted on the analysis formula over the current dataframe, and the
non-parametric path displays the Kruskal-Wallis statistic and p-value
computed by `stats.kruskal(*groups)` over exactly the per-group partitions of
`SalePrice_log` (missing values dropped) that `groupsFor` embeds — the same
partitions handed to Levene's test. -/
theorem c7_test_runner_calls (S : StatsLib) (df : List Row) :
    (RenderEvent.stDataframe (S.anova_lm (overallModel df) 2)
      ∈ App.run_analysis_overall_qual S df) ∧
    (RenderEvent.stDataframe (S.anova_lm (garageModel df) 2)
      ∈ App.run_analysis_garage_type S df) ∧
    (RenderEvent.stWrite "**Teste de Kruskal-Wallis:** Estatística H =, p-valor ="
        [(S.kruskal (groupsFor df neighborhoodCol)).1,
         (S.kruskal (groupsFor df neighborhoodCol)).2]
      ∈ App.run_analysis_neighborhood S df) ∧
    (RenderEvent.stWrite "**Homogeneidade de Variâncias (Levene):** p-valor ="
        [(S.levene (groupsFor df neighborhoodCol)).2]
      ∈ App.run_analysis_neighborhood S df) ∧
    (RenderEvent.stDataframe (S.anova_lm (overallModel df) 2)
      ∈ StApp.run_analysis_overall_qual S df) ∧
    (RenderEvent.stDataframe (S.anova_lm (garageModel df) 2)
      ∈ StApp.run_analysis_garage_type S df) ∧
    (RenderEvent.stMetric "P-valor de Kruskal-Wallis"
        (some (S.kruskal (groupsFor df neighborhoodCol)).2)
        (some "Rejeitamos H0: Diferença Significativa")
      ∈ StApp.run_analysis_neighborhood S df) := by
  refine ⟨?_, ?_, ?_, ?_, ?_, ?_, ?_⟩
  · exact .tail _ (.tail _ (.tail _ (.tail _ (.tail _ (.tail _ (.tail _
      (.tail _ (.tail _ (.head _)))))))))
  · exact .tail _ (.tail _ (.tail _ (.tail _ (.tail _ (.tail _ (.tail _
      (.tail _ (.tail _ (.head _)))))))))
  · exact .tail _ (.tail _ (.tail _ (.tail _ (.tail _ (.tail _ (.tail _
      (.tail _ (.head _))))))))
  · exact .tail _ (.tail _ (.tail _ (.tail _ (.head _))))
  · exact .tail _ (.tail _ (.tail _ (.tail _ (.tail _ (.tail _ (.tail _
      (.tail _ (.head _))))))))
  · exact .tail _ (.tail _ (.head _))
  · exact .tail _ (.tail _ (.head _))

/-- C2 (amended): the "met" verdict tracks p  above 0.05 only at the four
sites that actually test it — both verdicts of app.py's Overall Qual and
Garage Type routines, and both verdicts of streamlit_app.py's Overall Qual
routine (whose success count equals the number of p-values above 0.05).  The
two Neighborhood routines render "violated" unconditionally and never render
a success, whatever the computed p-values; streamlit_app.py's Garage Type
routine renders no verdict at all. -/
theorem c2_amended_verdicts (S : StatsLib) (df : List Row) :
    ((RenderEvent.stSuccess "✅ Pressuposto de normalidade atendido."
        ∈ App.run_analysis_overall_qual S df)
      ↔ normalityP S (overallModel df) > 0.05) ∧
    ((RenderEvent.stSuccess "✅ Pressuposto de homogeneidade atendido."
        ∈ App.run_analysis_overall_qual S df)
      ↔ homogeneityP S df overallQualCol > 0.05) ∧
    ((RenderEvent.stSuccess "✅ Pressuposto de normalidade atendido."
        ∈ App.run_analysis_garage_type S df)
      ↔ normalityP S (garageModel df) > 0.05) ∧
    ((RenderEvent.stSuccess "✅ Pressuposto de homogeneidade atendido."
        ∈ App.run_analysis_garage_type S df)
      ↔ homogeneityP S df garageTypeCol > 0.05) ∧
    ((StApp.run_analysis_overall_qual S df).countP isSuccessEvent
      = (if normalityP S (overallModel df) > 0.05 then 1 else 0)
        + (if homogeneityP S df overallQualCol > 0.05 then 1 else 0)) ∧
    ((App.run_analysis_neighborhood S df).countP isSuccessEvent = 0) ∧
    (RenderEvent.stWarning "❌ Pressuposto de normalidade violado."
      ∈ App.run_analysis_neighborhood S df) ∧
    (RenderEvent.stWarning "❌ Pressuposto de homogeneidade violado."
      ∈ App.run_analysis_neighborhood S df) ∧
    ((StApp.run_analysis_neighborhood S df).countP isSuccessEvent = 0) ∧
    (RenderEvent.stWarning "Pressupostos de normalidade e homogeneidade violados. Usando Kruskal-Wallis."
      ∈ StApp.run_analysis_neighborhood S df) ∧
    ((StApp.run_analysis_garage_type S df).countP isSuccessEvent = 0 ∧
     (StApp.run_analysis_garage_type S df).countP isWarningEvent = 0) := by
  refine ⟨?_, ?_, ?_, ?_, ?_, rfl, ?_, ?_, rfl, ?_, rfl, rfl⟩
  · by_cases h1 : normalityP S (overallModel df) > 0.05 <;>
      by_cases h2 : homogeneityP S df overallQualCol > 0.05 <;>
      simp [App.run_analysis_overall_qual, h1, h2]
  · by_cases h1 : normalityP S (overallModel df) > 0.05 <;>
      by_cases h2 : homogeneityP S df overallQualCol > 0.05 <;>
      simp [App.run_analysis_overall_qual, h1, h2]
  · by_cases h1 : normalityP S (garageModel df) > 0.05 <;>
      by_cases h2 : homogeneityP S df garageTypeCol > 0.05 <;>
      simp [App.run_analysis_garage_type, h1, h2]
  · by_cases h1 : normalityP S (garageModel df) > 0.05 <;>
      by_cases h2 : homogeneityP S df garageTypeCol > 0.05 <;>
      simp [App.run_analysis_garage_type, h1, h2]
  · by_cases h1 : normalityP S (overallModel df) > 0.05 <;>
      by_cases h2 : homogeneityP S df overallQualCol > 0.05 <;>
      simp [StApp.run_analysis_overall_qual, h1, h2, isSuccessEvent,
        List.countP_cons]
  · exact .tail _ (.tail _ (.tail _ (.head _)))
  · exact .tail _ (.tail _ (.tail _ (.tail _ (.tail _ (.head _)))))
  · exact .tail _ (.head _)

/-- C2 counterexample: with an oracle returning p-value 1 for every test,
the app.py Neighborhood routine still renders both "violated" warnings and no
"met" verdict, although both computed p-values exceed 0.05 — the claim's
biconditional fails for the neighborhood attribute. -/
theorem c2_counterexample_neighborhood :
    normalityP constLib (neighborhoodModel dfSample) > 0.05 ∧
    homogeneityP constLib dfSample neighborhoodCol > 0.05 ∧
    (RenderEvent.stWarning "❌ Pressuposto de normalidade violado."
      ∈ App.run_analysis_neighborhood constLib dfSample) ∧
    (RenderEvent.stWarning "❌ Pressuposto de homogeneidade violado."
      ∈ App.run_analysis_neighborhood constLib dfSample) ∧
    (App.run_analysis_neighborhood constLib dfSample).countP isSuccessEvent
      = 0 := by
  refine ⟨?_, ?_, ?_, ?_, rfl⟩
  · norm_num [normalityP, constLib]
  · norm_num [homogeneityP, constLib]
  · exact .tail _ (.tail _ (.tail _ (.head _)))
  · exact .tail _ (.tail _ (.tail _ (.tail _ (.tail _ (.head _)))))

/-- C3 (amended): the Neighborhood and Garage Type box-plots (both files)
pass an explicit group order that is ascending in the group medians of the
log target; the two Overall Qual box-plots pass no `order=` argument, so
seaborn falls back to value-sorted categories, which need not be ascending in
the medians. -/
theorem c3_amended_boxplot_order (S : StatsLib) (df : List Row) :
    ((App.run_analysis_neighborhood S df).all (figOrderedByMedianB df)
      = true) ∧
    ((App.run_analysis_garage_type S df).all (figOrderedByMedianB df)
      = true) ∧
    ((StApp.run_analysis_neighborhood S df).all (figOrderedByMedianB df)
      = true) ∧
    ((StApp.run_analysis_garage_type S df).all (figOrderedByMedianB df)
      = true) ∧
    (∃ f : Figure, RenderEvent.stPyplot f ∈ App.run_analysis_overall_qual S df
      ∧ f.order = none) ∧
    (∃ f : Figure, RenderEvent.stPyplot f ∈ StApp.run_analysis_overall_qual S df
      ∧ f.order = none) := by
  refine ⟨?_, ?_, ?_, ?_, ?_, ?_⟩
  · simp [App.run_analysis_neighborhood, figOrderedByMedianB, renderedOrder,
      colOf, medianOrder_sorted]
  · by_cases h1 : normalityP S (garageModel df) > 0.05 <;>
      by_cases h2 : homogeneityP S df garageTypeCol > 0.05 <;>
      simp [App.run_analysis_garage_type, h1, h2, figOrderedByMedianB,
        renderedOrder, colOf, medianOrder_sorted]
  · simp [StApp.run_analysis_neighborhood, figOrderedByMedianB, renderedOrder,
      colOf, medianOrder_sorted]
  · simp [StApp.run_analysis_garage_type, figOrderedByMedianB, renderedOrder,
      colOf, medianOrder_sorted]
  · exact ⟨_, .tail _ (.tail _ (.tail _ (.tail _ (.tail _ (.tail _ (.tail _
      (.tail _ (.tail _ (.tail _ (.head _)))))))))), rfl⟩
  · exact ⟨_, .tail _ (.tail _ (.tail _ (.tail _ (.tail _ (.tail _ (.tail _
      (.tail _ (.tail _ (.head _))))))))), rfl⟩

/-- C3 counterexample: on the concrete sample data — quality grade 1 homes
with log price 10, grade 2 homes with log price 5 — the Overall Qual
box-plot's rendered group order (seaborn's value-sorted default, since the
call passes no `order=`) is NOT ascending in the group medians, refuting the
claim for the quality attribute. -/
theorem c3_counterexample_overall_qual :
    (App.run_analysis_overall_qual constLib dfSample).all
      (figOrderedByMedianB dfSample) = false := by
  have h1 : normalityP constLib (overallModel dfSample) > 0.05 := by
    norm_num [normalityP, constLib]
  have h2 : homogeneityP constLib dfSample overallQualCol > 0.05 := by
    norm_num [homogeneityP, constLib]
  simp only [App.run_analysis_overall_qual, if_pos h1, if_pos h2]
  decide

/-- C9 (amended): tick-label rotation is applied exactly in the two
Neighborhood routines; the Overall Qual and Garage Type box-plots are drawn
without any rotation, in both files (the garage routines do render a
box-plot, so the rotation is genuinely absent rather than there being no
plot). -/
theorem c9_amended_rotation (S : StatsLib) (df : List Row) :
    ((App.run_analysis_neighborhood S df).countP isRotatedPyplot = 1) ∧
    ((StApp.run_analysis_neighborhood S df).countP isRotatedPyplot = 1) ∧
    ((App.run_analysis_overall_qual S df).countP isRotatedPyplot = 0) ∧
    ((App.run_analysis_garage_type S df).countP isRotatedPyplot = 0 ∧
     (App.run_analysis_garage_type S df).countP isPyplot = 1) ∧
    ((StApp.run_analysis_overall_qual S df).countP isRotatedPyplot = 0) ∧
    ((StApp.run_analysis_garage_type S df).countP isRotatedPyplot = 0 ∧
     (StApp.run_analysis_garage_type S df).countP isPyplot = 1) := by
  refine ⟨rfl, rfl, ?_, ⟨?_, ?_⟩, ?_, ⟨rfl, rfl⟩⟩
  · by_cases h1 : normalityP S (overallModel df) > 0.05 <;>
      by_cases h2 : homogeneityP S df overallQualCol > 0.05 <;>
      simp [App.run_analysis_overall_qual, h1, h2, isRotatedPyplot,
        List.countP_cons]
  · by_cases h1 : normalityP S (garageModel df) > 0.05 <;>
      by_cases h2 : homogeneityP S df garageTypeCol > 0.05 <;>
      simp [App.run_analysis_garage_type, h1, h2, isRotatedPyplot,
        List.countP_cons]
  · by_cases h1 : normalityP S (garageModel df) > 0.05 <;>
      by_cases h2 : homogeneityP S df garageTypeCol > 0.05 <;>
      simp [App.run_analysis_garage_type, h1, h2, isPyplot,
        List.countP_cons]
  · by_cases h1 : normalityP S (overallModel df) > 0.05 <;>
      by_cases h2 : homogeneityP S df overallQualCol > 0.05 <;>
      simp [StApp.run_analysis_overall_qual, h1, h2, isRotatedPyplot,
        List.countP_cons]

/-- C9 counterexample: at concrete inputs both Garage Type routines render
exactly one box-plot and zero rotated box-plots — the claim says the
garage-type plot's labels are rotated. -/
theorem c9_counterexample_garage :
    ((StApp.run_analysis_garage_type constLib dfSample).countP isPyplot = 1 ∧
     (StApp.run_analysis_garage_type constLib dfSample).countP isRotatedPyplot
       = 0) ∧
    ((App.run_analysis_garage_type constLib dfSample).countP isPyplot = 1 ∧
     (App.run_analysis_garage_type constLib dfSample).countP isRotatedPyplot
       = 0) := by
  refine ⟨⟨rfl, rfl⟩, ?_, ?_⟩
  · by_cases h1 : normalityP constLib (garageModel dfSample) > 0.05 <;>
      by_cases h2 : homogeneityP constLib dfSample garageTypeCol > 0.05 <;>
      simp [App.run_analysis_garage_type, h1, h2, isPyplot, List.countP_cons]
  · by_cases h1 : normalityP constLib (garageModel dfSample) > 0.05 <;>
      by_cases h2 : homogeneityP constLib dfSample garageTypeCol > 0.05 <;>
      simp [App.run_analysis_garage_type, h1, h2, isRotatedPyplot,
        List.countP_cons]

theorem app_main_header_count (S : StatsLib) (lg : ℚ → ℚ)
    (raws : List RawRow) (sel : AnalysisOption) :
    (App.main S lg (some raws) sel).countP isHeaderEvent = 1 := by
  cases sel with
  | overallQual =>
    by_cases h1 : normalityP S (overallModel (loadRows lg raws)) > 0.05 <;>
      by_cases h2 : homogeneityP S (loadRows lg raws) overallQualCol > 0.05 <;>
      simp [App.main, App.load_data, App.run_analysis_overall_qual, h1, h2,
        isHeaderEvent, List.countP_cons, List.countP_append]
  | neighborhood => rfl
  | garageType =>
    by_cases h1 : normalityP S (garageModel (loadRows lg raws)) > 0.05 <;>
      by_cases h2 : homogeneityP S (loadRows lg raws) garageTypeCol > 0.05 <;>
      simp [App.main, App.load_data, App.run_analysis_garage_type, h1, h2,
        isHeaderEvent, List.countP_cons, List.countP_append]

theorem app_main_header_mem (S : StatsLib) (lg : ℚ → ℚ)
    (raws : List RawRow) (sel : AnalysisOption) :
    headerOf sel ∈ App.main S lg (some raws) sel := by
  cases sel <;> exact .tail _ (.tail _ (.tail _ (.head _)))

theorem stapp_main_subheader_count (S : StatsLib) (lg : ℚ → ℚ)
    (raws : List RawRow) (pm : ℚ) :
    (StApp.main S lg (some raws) pm).countP isSubheaderEvent = 3 := by
  by_cases h1 : normalityP S
      (overallModel (filterByMaxLog (loadRows lg raws) pm)) > 0.05 <;>
    by_cases h2 : homogeneityP S
      (filterByMaxLog (loadRows lg raws) pm) overallQualCol > 0.05 <;>
    simp [StApp.main, StApp.load_data, StApp.run_analysis_overall_qual,
      StApp.run_analysis_neighborhood, StApp.run_analysis_garage_type,
      h1, h2, isSubheaderEvent, List.countP_cons, List.countP_append]

/-- C4 (amended): in app.py one interaction renders exactly one analysis —
the routine banner count is one and it is the selected attribute's banner —
but in streamlit_app.py every interaction executes all three analysis
routines, one per tab: all three routine banners appear in a single render
trace. -/
theorem c4_amended_dispatch (S : StatsLib) (lg : ℚ → ℚ)
    (raws : List RawRow) (sel : AnalysisOption) (pm : ℚ) :
    ((App.main S lg (some raws) sel).countP isHeaderEvent = 1 ∧
     headerOf sel ∈ App.main S lg (some raws) sel) ∧
    (StApp.main S lg (some raws) pm).countP isSubheaderEvent = 3 :=
  ⟨⟨app_main_header_count S lg raws sel, app_main_header_mem S lg raws sel⟩,
   stapp_main_subheader_count S lg raws pm⟩

/-- C4 counterexample: on a concrete successful load, one streamlit_app.py
render pass contains the banners of all three analysis routines — not only
the output of a single selected routine. -/
theorem c4_counterexample_tabs :
    (StApp.main constLib (fun q => q) (some rawSample) 10).countP
      isSubheaderEvent = 3 :=
  stapp_main_subheader_count constLib (fun q => q) rawSample 10
